import Mathlib

/-!
Shallow embedding of `fix_all_content.py`, a one-shot batch text rewriter.
Text is modelled as `List Char`, file bytes as `List Nat`.  Python's
`str.replace` (all occurrences, left to right, scanning resumes after each
replacement) is `replaceAll`; `in` is `occurs`; the four `re.sub` calls (all
with empty replacement) are `regexDelete` over a small backtracking regex
interpreter whose match priority mirrors Python's leftmost-then-backtracking
order (greedy star first, alternatives in written order).
-/

set_option maxRecDepth 100000

namespace FixAll

/-- Python `pattern in content`: does `p` occur as a contiguous sublist of `s`? -/
def occurs [BEq α] (p : List α) : List α → Bool
  | [] => p.isEmpty
  | c :: cs => p.isPrefixOf (c :: cs) || occurs p cs

/-- Fuelled core of Python `str.replace`: scan left to right, on a match emit
the replacement and resume after the matched text.  Fuel only guards
termination; `s.length` fuel is always enough. -/
def replaceAllF [BEq α] (p r : List α) : Nat → List α → List α
  | _, [] => []
  | 0, s => s
  | n + 1, c :: cs =>
    if p.isPrefixOf (c :: cs) then r ++ replaceAllF p r n ((c :: cs).drop p.length)
    else c :: replaceAllF p r n cs

/-- Python `content.replace(p, r)` (our patterns are all nonempty). -/
def replaceAll [BEq α] (p r s : List α) : List α := replaceAllF p r s.length s

example : replaceAll "ab".data "X".data "zababy".data = "zXXy".data := by decide

example : occurs "ab".data "zaby".data = true := by decide

/-- Regex abstract syntax, covering exactly the constructs used by the four
`re.sub` patterns of the script: single-character classes, (case-insensitive)
literal strings, concatenation, alternation, and Kleene star of a character
class. -/
inductive RE where
  | eps : RE
  | ch : (Char → Bool) → RE
  | str : List Char → RE
  | seq : RE → RE → RE
  | alt : RE → RE → RE
  | star : (Char → Bool) → RE

/-- Case-insensitive literal match against the start of `s` (the script's
regexes all carry `re.IGNORECASE`; pattern literals are stored lowercase). -/
def ciIsPrefix : List Char → List Char → Bool
  | [], _ => true
  | _ :: _, [] => false
  | p :: ps, c :: cs => (p == c.toLower) && ciIsPrefix ps cs

/-- Suffixes reachable by a greedy star of the class `f`, in backtracking
priority order: consume as many characters as possible first. -/
def starSuffixes (f : Char → Bool) : List Char → List (List Char)
  | [] => [[]]
  | c :: cs => if f c then starSuffixes f cs ++ [c :: cs] else [c :: cs]

/-- All suffixes left after matching `r` at the front of `s`, in the
backtracking priority order of Python's engine (greedy star longest-first,
alternatives in written order).  The head of the list is the suffix Python's
match would leave. -/
def reMatch : RE → List Char → List (List Char)
  | RE.eps, s => [s]
  | RE.ch _, [] => []
  | RE.ch f, c :: cs => if f c then [cs] else []
  | RE.str p, s => if ciIsPrefix p s then [s.drop p.length] else []
  | RE.seq a b, s => (reMatch a s).flatMap (reMatch b)
  | RE.alt a b, s => reMatch a s ++ reMatch b s
  | RE.star f, s => starSuffixes f s

/-- Does `r` match starting at some position of `s`? -/
def hasREMatch (r : RE) : List Char → Bool
  | [] => false
  | c :: cs => !(reMatch r (c :: cs)).isEmpty || hasREMatch r cs

/-- Fuelled core of `re.sub(r, '', s)` (all four `re.sub` calls in the script
delete their match): scan left to right; at a matching position drop the
matched text and resume at the tail the match left.  All of the script's
patterns begin with a literal `<`, so a match always consumes at least one
character and fuel `s.length` is always enough. -/
def regexDeleteF (r : RE) : Nat → List Char → List Char
  | _, [] => []
  | 0, s => s
  | n + 1, c :: cs =>
    match reMatch r (c :: cs) with
    | [] => c :: regexDeleteF r n cs
    | s' :: _ => regexDeleteF r n s'

/-- Python `re.sub(r, '', s)`. -/
def regexDelete (r : RE) (s : List Char) : List Char := regexDeleteF r s.length s

/-- Concatenation of a list of regexes. -/
def reCat (l : List RE) : RE := l.foldr RE.seq RE.eps

/-- Ordered alternation of a list of regexes. -/
def reAlts (l : List RE) : RE := l.foldr RE.alt (RE.ch fun _ => false)

def notGt (c : Char) : Bool := c != '>'

def notLt (c : Char) : Bool := c != '<'

/-- Python `\s` on ASCII text. -/
def isWs (c : Char) : Bool :=
  c == ' ' || c == '\t' || c == '\n' || c == '\r' || c == Char.ofNat 11 || c == Char.ofNat 12

def isQuote (c : Char) : Bool := c == '"' || c == Char.ofNat 39

def notQuote (c : Char) : Bool := !isQuote c

example :
    regexDelete (reCat [RE.str "<b".data, RE.star notGt, RE.str ">".data]) "x<B c>y".data
      = "xy".data := by decide

/-- The em dash U+2014 of the script. -/
def em_dash : String := "—"

/-- The en dash U+2013 of the script. -/
def en_dash : String := "–"

/-- `patterns_nationwide` from the script: the four dash variants of the
shipping phrase, each removed (replaced by the empty string) if present. -/
def patterns_nationwide : List (List Char) :=
  [ (em_dash ++ " Nationwide Shipping").data,
    (en_dash ++ " Nationwide Shipping").data,
    "- Nationwide Shipping".data,
    "Nationwide Shipping".data ]

/-- `state_replacements` from the script, in source order. -/
def state_replacements : List (List Char × List Char) :=
  [ ("NY, NJ, GA, & CT".data, "NJ".data),
    ("NY, NJ, GA & CT".data, "NJ".data),
    ("NY, NJ, GA, CT".data, "NJ".data),
    ("NY, NJ, GA".data, "NJ".data),
    ("in NY, NJ, GA, & CT".data, "in NJ".data),
    ("in NY, NJ, GA & CT".data, "in NJ".data),
    ("in NY, NJ, GA, CT".data, "in NJ".data),
    ("in NY, NJ, GA".data, "in NJ".data) ]

/-- `middle_eastern_replacements` from the script, in source order. -/
def middle_eastern_replacements : List (List Char × List Char) :=
  [ ("Middle Eastern Restaurant".data, "Halal Restaurant".data),
    ("Middle Eastern Cuisine".data, "Halal Cuisine".data),
    ("Middle Eastern Food".data, "Halal Food".data),
    ("Middle,Eastern,Restaurant".data, "Halal,Restaurant".data),
    ("Middle,Eastern,Food".data, "Halal,Food".data),
    ("Middle Eastern & Mediterranean".data, "Halal".data),
    ("authentic Middle Eastern".data, "authentic Halal".data),
    ("Middle Eastern".data, "Halal".data) ]

/-- One step of the script's literal-replacement loops:
`if old in content: content = content.replace(old, new); changes.append(cat)`. -/
def litRule (cat : String) (p r : List Char) (st : List Char × List String) :
    List Char × List String :=
  if occurs p st.1 then (replaceAll p r st.1, st.2 ++ [cat]) else st

/-- A whole literal-replacement loop, over an ordered rule list that shares
one category label. -/
def litRules (cat : String) (rules : List (List Char × List Char))
    (st : List Char × List String) : List Char × List String :=
  rules.foldl (fun st pr => litRule cat pr.1 pr.2 st) st

/-- The anchor-removal regex (script line 67), an `<a>` element whose
`aria-label` attribute and text are both the shipping phrase, with
`re.IGNORECASE`; literal text stored lowercase because matching is
case-insensitive. -/
def nsAnchorRE : RE :=
  reCat
    [ RE.str "<a".data, RE.star notGt, RE.str "aria-label=".data, RE.ch isQuote,
      RE.str "nationwide shipping".data, RE.ch isQuote, RE.star notGt,
      RE.str ">nationwide shipping</a>".data ]

/-- The list-item removal regex (script line 73):
`<li[^>]*>\s*<a...aria-label="Nationwide Shipping"...>...</a>\s*</li>`, with
`re.IGNORECASE | re.DOTALL` (DOTALL is irrelevant: the pattern has no dot). -/
def nsLiAnchorRE : RE :=
  reCat
    [ RE.str "<li".data, RE.star notGt, RE.str ">".data, RE.star isWs,
      nsAnchorRE, RE.star isWs, RE.str "</li>".data ]

def h12 (c : Char) : Bool := c == '1' || c == '2'

/-- The heading-removal regex (script line 81):
`<h[12][^>]*>\s*Nationwide\s+Shipping\s*</h[12]>` with `re.IGNORECASE`. -/
def nsHeadingRE : RE :=
  reCat
    [ RE.str "<h".data, RE.ch h12, RE.star notGt, RE.str ">".data, RE.star isWs,
      RE.str "nationwide".data, RE.ch isWs, RE.star isWs, RE.str "shipping".data,
      RE.star isWs, RE.str "</h".data, RE.ch h12, RE.str ">".data ]

/-- The dropdown-option removal regex (script line 87):
`<option\s+value=["']mamouns-[^"']*-(?:ct|ny|nyc|ga)["'][^>]*>[^<]*</option>`
with `re.IGNORECASE`; alternatives kept in written order. -/
def optionRE : RE :=
  reCat
    [ RE.str "<option".data, RE.ch isWs, RE.star isWs, RE.str "value=".data,
      RE.ch isQuote, RE.str "mamouns-".data, RE.star notQuote, RE.str "-".data,
      reAlts [RE.str "ct".data, RE.str "ny".data, RE.str "nyc".data, RE.str "ga".data],
      RE.ch isQuote, RE.star notGt, RE.str ">".data, RE.star notLt,
      RE.str "</option>".data ]

/-- The first hot-sauce marketing sentence (script line 82). -/
def hot_sauce_1 : List Char := "Now Shipping Hot Sauce Nationwide".data

/-- The second hot-sauce marketing sentence (script line 83). -/
def hot_sauce_2 : List Char := "Shipping Hot Sauce Nationwide".data

/-- The transform body of `fix_file` (script lines 22–91), applied to the
decoded text of one file: the three literal-replacement loops (which record a
category per firing rule), then the four regex deletions and the two
unconditional hot-sauce sentence replacements (which record nothing).
Returns the new text and the `changes` list in append order. -/
def fix_content (s : List Char) : List Char × List String :=
  let st1 := litRules "removed Nationwide Shipping"
    (patterns_nationwide.map fun p => (p, [])) (s, [])
  let st2 := litRules "replaced states" state_replacements st1
  let st3 := litRules "replaced Middle Eastern" middle_eastern_replacements st2
  let c4 := regexDelete nsAnchorRE st3.1
  let c5 := regexDelete nsLiAnchorRE c4
  let c6 := regexDelete nsHeadingRE c5
  let c7 := replaceAll hot_sauce_1 "Hot Sauce Available".data c6
  let c8 := replaceAll hot_sauce_2 "Hot Sauce Available".data c7
  let c9 := regexDelete optionRE c8
  (c9, st3.2)

/-- The tail of `fix_file` (script lines 93–97) at the text level: write back
and report `(True, list(set(changes)))` only when the content changed
(`list(set(..))` is modelled as first-occurrence deduplication). -/
def fix_file_text (s : List Char) : List Char × Bool × List String :=
  let (c, ch) := fix_content s
  if c = s then (s, false, []) else (c, true, ch.dedup)

/-- Is `b` a UTF-8 continuation byte (`0x80`–`0xBF`)? -/
def utf8Cont (b : Nat) : Bool := 128 ≤ b && b < 192

/-- Strict UTF-8 decoding, as performed by `open(..., encoding='utf-8')`
without an `errors` argument (the script's debug read of `index.html`):
rejects stray continuation bytes, overlong forms, surrogates and
out-of-range sequences, returning `none` like a raised `UnicodeDecodeError`. -/
def decodeUtf8Strict : List Nat → Option (List Char)
  | [] => some []
  | b :: bs =>
    if b < 128 then (decodeUtf8Strict bs).map (fun cs => Char.ofNat b :: cs)
    else if 194 ≤ b && b ≤ 223 then
      match bs with
      | b1 :: bs' =>
        if utf8Cont b1 then
          (decodeUtf8Strict bs').map (fun cs => Char.ofNat ((b - 192) * 64 + (b1 - 128)) :: cs)
        else none
      | [] => none
    else if 224 ≤ b && b ≤ 239 then
      match bs with
      | b1 :: b2 :: bs' =>
        if utf8Cont b1 && utf8Cont b2 && (b != 224 || 160 ≤ b1) && (b != 237 || b1 < 160) then
          (decodeUtf8Strict bs').map
            (fun cs => Char.ofNat ((b - 224) * 4096 + (b1 - 128) * 64 + (b2 - 128)) :: cs)
        else none
      | _ => none
    else if 240 ≤ b && b ≤ 244 then
      match bs with
      | b1 :: b2 :: b3 :: bs' =>
        if utf8Cont b1 && utf8Cont b2 && utf8Cont b3
            && (b != 240 || 144 ≤ b1) && (b != 244 || b1 < 144) then
          (decodeUtf8Strict bs').map
            (fun cs =>
              Char.ofNat ((b - 240) * 262144 + (b1 - 128) * 4096 + (b2 - 128) * 64 + (b3 - 128))
                :: cs)
        else none
      | _ => none
    else none

/-- The Unicode replacement character U+FFFD. -/
def replChar : Char := Char.ofNat 0xFFFD

/-- Lossy UTF-8 decoding, as performed by the script's
`open(..., encoding='utf-8', errors='replace')` read: every ill-formed byte
yields a U+FFFD instead of failing (Python substitutes one U+FFFD per
ill-formed unit; here one per offending byte, which agrees on the inputs the
development evaluates).  This decoding is total: it never raises. -/
def decodeUtf8Replace : List Nat → List Char
  | [] => []
  | b :: bs =>
    if b < 128 then Char.ofNat b :: decodeUtf8Replace bs
    else if 194 ≤ b && b ≤ 223 then
      match bs with
      | b1 :: bs' =>
        if utf8Cont b1 then Char.ofNat ((b - 192) * 64 + (b1 - 128)) :: decodeUtf8Replace bs'
        else replChar :: decodeUtf8Replace (b1 :: bs')
      | [] => [replChar]
    else if 224 ≤ b && b ≤ 239 then
      match bs with
      | b1 :: b2 :: bs' =>
        if utf8Cont b1 && utf8Cont b2 && (b != 224 || 160 ≤ b1) && (b != 237 || b1 < 160) then
          Char.ofNat ((b - 224) * 4096 + (b1 - 128) * 64 + (b2 - 128)) :: decodeUtf8Replace bs'
        else replChar :: decodeUtf8Replace (b1 :: b2 :: bs')
      | rest => replChar :: decodeUtf8Replace rest
    else if 240 ≤ b && b ≤ 244 then
      match bs with
      | b1 :: b2 :: b3 :: bs' =>
        if utf8Cont b1 && utf8Cont b2 && utf8Cont b3
            && (b != 240 || 144 ≤ b1) && (b != 244 || b1 < 144) then
          Char.ofNat ((b - 240) * 262144 + (b1 - 128) * 4096 + (b2 - 128) * 64 + (b3 - 128))
            :: decodeUtf8Replace bs'
        else replChar :: decodeUtf8Replace (b1 :: b2 :: b3 :: bs')
      | rest => replChar :: decodeUtf8Replace rest
    else replChar :: decodeUtf8Replace bs

/-- UTF-8 encoding of one character (what writing with `encoding='utf-8'`
emits). -/
def encodeUtf8Char (c : Char) : List Nat :=
  let n := c.toNat
  if n < 128 then [n]
  else if n < 2048 then [192 + n / 64, 128 + n % 64]
  else if n < 65536 then [224 + n / 4096, 128 + n / 64 % 64, 128 + n % 64]
  else [240 + n / 262144, 128 + n / 4096 % 64, 128 + n / 64 % 64, 128 + n % 64]

/-- UTF-8 encoding of a text. -/
def encodeUtf8 (cs : List Char) : List Nat := cs.flatMap encodeUtf8Char

/-- Universal-newline translation performed by Python's text-mode read with
the default `newline=None` (the script's read on line 12): `"\r\n"` and a
lone `"\r"` both become `"\n"` in the in-memory text. -/
def univNewlines : List Char → List Char
  | [] => []
  | '\r' :: '\n' :: cs => '\n' :: univNewlines cs
  | '\r' :: cs => '\n' :: univNewlines cs
  | c :: cs => c :: univNewlines cs

/-- A discovered markup file: its path (name) and its raw bytes on disk. -/
structure HFile where
  name : String
  bytes : List Nat
deriving DecidableEq

/-- `fix_file` (script lines 8–102) on one file: decode the bytes with
`errors='replace'` and universal newlines, run the transform, and write back
(UTF-8, `newline=''` so the in-memory text is encoded with no newline
translation) only if the text changed.  In this model the body never raises,
matching the fact that lossy decoding is total and the transform is pure, so
the `try`/`except` around it has nothing to catch. -/
def fix_file (f : HFile) : HFile × Bool × List String :=
  let s := univNewlines (decodeUtf8Replace f.bytes)
  let (c, ch) := fix_content s
  if c = s then (f, false, []) else ({ f with bytes := encodeUtf8 c }, true, ch.dedup)

/-- The main loop (script lines 116–135) over the discovered files, returning
the final file system, the count of changed files, and whether the loop ran
to completion.  For a file named `index.html` the debug block first re-reads
the file with STRICT UTF-8 decoding (`open(html_file, 'r', encoding='utf-8')`,
no `errors=` argument) outside any `try`/`except`; if that decoding fails the
`UnicodeDecodeError` propagates and the whole run aborts, leaving that file
and every later file untouched.  (The real debug block decodes only the first
500 characters; the development only evaluates this on a file whose very
first byte is ill-formed, where the two agree.) -/
def runBatch : List HFile → List HFile × Nat × Bool
  | [] => ([], 0, true)
  | f :: fs =>
    if f.name = "index.html" && (decodeUtf8Strict f.bytes).isNone then
      (f :: fs, 0, false)
    else
      let (f', changed, _) := fix_file f
      let (fs', n, ok) := runBatch fs
      (f' :: fs', (if changed then 1 else 0) + n, ok)

/-- Does the text contain no occurrence of any literal rule pattern and no
match of any of the four removal regexes?  On such texts every stage of the
transform is the identity. -/
def no_target_patterns (s : List Char) : Bool :=
  patterns_nationwide.all (fun p => !occurs p s) &&
  state_replacements.all (fun pr => !occurs pr.1 s) &&
  middle_eastern_replacements.all (fun pr => !occurs pr.1 s) &&
  !hasREMatch nsAnchorRE s && !hasREMatch nsLiAnchorRE s && !hasREMatch nsHeadingRE s &&
  !occurs hot_sauce_1 s && !occurs hot_sauce_2 s && !hasREMatch optionRE s

/-- The first four entries of `state_replacements`: the bare (not
preposition-prefixed) region-code variants. -/
def state_replacements_bare : List (List Char × List Char) :=
  [ ("NY, NJ, GA, & CT".data, "NJ".data),
    ("NY, NJ, GA & CT".data, "NJ".data),
    ("NY, NJ, GA, CT".data, "NJ".data),
    ("NY, NJ, GA".data, "NJ".data) ]

/-- Comparison program for the refinement claim about the state rules: the
same transform as `fix_content`, but with the four preposition-prefixed
region replacement rules (`in NY, NJ, GA, & CT` and friends) removed from
the state loop.  The claim asserts this program is extensionally equal to
`fix_content`. -/
def fix_content_noin (s : List Char) : List Char × List String :=
  let st1 := litRules "removed Nationwide Shipping"
    (patterns_nationwide.map fun p => (p, [])) (s, [])
  let st2 := litRules "replaced states" state_replacements_bare st1
  let st3 := litRules "replaced Middle Eastern" middle_eastern_replacements st2
  let c4 := regexDelete nsAnchorRE st3.1
  let c5 := regexDelete nsLiAnchorRE c4
  let c6 := regexDelete nsHeadingRE c5
  let c7 := replaceAll hot_sauce_1 "Hot Sauce Available".data c6
  let c8 := replaceAll hot_sauce_2 "Hot Sauce Available".data c7
  let c9 := regexDelete optionRE c8
  (c9, st3.2)

/-- An `index.html` whose single byte `0xFF` is not valid UTF-8. -/
def badIndexFile : HFile := ⟨"index.html", [255]⟩

/-- A page, discovered after `index.html`, that contains a target pattern. -/
def pageFile : HFile := ⟨"page.html", encodeUtf8 "Nationwide Shipping".data⟩

/-- A file with CRLF line endings whose content contains a target pattern. -/
def crlfFile : HFile := ⟨"page2.html", encodeUtf8 "A\r\nNationwide Shipping\r\nB".data⟩

/-- A pattern-free file. -/
def plainFile : HFile := ⟨"a.html", encodeUtf8 "<p>hello</p>".data⟩

theorem replaceAllF_id [BEq α] (p r : List α) :
    ∀ (s : List α) (n : Nat), occurs p s = false → replaceAllF p r n s = s
  | [], n, _ => by cases n <;> rfl
  | _ :: _, 0, _ => rfl
  | c :: cs, n + 1, h => by
    rw [occurs, Bool.or_eq_false_iff] at h
    simp only [replaceAllF, h.1, if_false, Bool.false_eq_true]
    rw [replaceAllF_id p r cs n h.2]

/-- `str.replace` leaves a text without the pattern unchanged. -/
theorem replaceAll_id [BEq α] (p r : List α) (s : List α) (h : occurs p s = false) :
    replaceAll p r s = s := replaceAllF_id p r s s.length h

theorem regexDeleteF_id (r : RE) :
    ∀ (s : List Char) (n : Nat), hasREMatch r s = false → regexDeleteF r n s = s
  | [], n, _ => by cases n <;> rfl
  | _ :: _, 0, _ => rfl
  | c :: cs, n + 1, h => by
    rw [hasREMatch, Bool.or_eq_false_iff, Bool.not_eq_false'] at h
    rw [regexDeleteF, List.isEmpty_iff.mp h.1, regexDeleteF_id r cs n h.2]

/-- `re.sub` leaves a text without any match unchanged. -/
theorem regexDelete_id (r : RE) (s : List Char) (h : hasREMatch r s = false) :
    regexDelete r s = s := regexDeleteF_id r s s.length h

theorem litRule_id (cat : String) (p r : List Char) (st : List Char × List String)
    (h : occurs p st.1 = false) : litRule cat p r st = st := by
  simp [litRule, h]

theorem litRules_id (cat : String) :
    ∀ (rules : List (List Char × List Char)) (st : List Char × List String),
      (∀ pr ∈ rules, occurs pr.1 st.1 = false) → litRules cat rules st = st
  | [], _, _ => rfl
  | pr :: rest, st, h => by
    have h1 : litRule cat pr.1 pr.2 st = st := litRule_id cat pr.1 pr.2 st (h pr (by simp))
    have h2 : litRules cat rest st = st :=
      litRules_id cat rest st (fun q hq => h q (List.mem_cons_of_mem pr hq))
    calc litRules cat (pr :: rest) st
        = litRules cat rest (litRule cat pr.1 pr.2 st) := rfl
      _ = litRules cat rest st := by rw [h1]
      _ = st := h2

/-- A text containing no target pattern is a fixed point of the transform,
and no category is recorded on it. -/
theorem fix_content_id (s : List Char) (h : no_target_patterns s = true) :
    fix_content s = (s, []) := by
  simp only [no_target_patterns, Bool.and_eq_true, List.all_eq_true, Bool.not_eq_true'] at h
  obtain ⟨⟨⟨⟨⟨⟨⟨⟨h1, h2⟩, h3⟩, h4⟩, h5⟩, h6⟩, h7⟩, h8⟩, h9⟩ := h
  have e1 : litRules "removed Nationwide Shipping"
      (patterns_nationwide.map fun p => (p, ([] : List Char))) (s, ([] : List String))
      = (s, []) := by
    refine litRules_id _ _ _ ?_
    intro pr hpr
    rcases List.mem_map.mp hpr with ⟨p, hp, rfl⟩
    exact h1 p hp
  have e2 : litRules "replaced states" state_replacements (s, ([] : List String)) = (s, []) :=
    litRules_id _ _ _ (fun pr hpr => h2 pr hpr)
  have e3 : litRules "replaced Middle Eastern" middle_eastern_replacements
      (s, ([] : List String)) = (s, []) :=
    litRules_id _ _ _ (fun pr hpr => h3 pr hpr)
  simp only [fix_content, e1, e2, e3, regexDelete_id nsAnchorRE s h4,
    regexDelete_id nsLiAnchorRE s h5, regexDelete_id nsHeadingRE s h6,
    replaceAll_id hot_sauce_1 _ s h7, replaceAll_id hot_sauce_2 _ s h8,
    regexDelete_id optionRE s h9]

/-- Claim C1: the claim says an `index.html` whose bytes are not valid UTF-8
never terminates the batch, but the debug block's strict read of `index.html`
sits outside any `try`/`except`: on such a file the batch aborts with the
whole run incomplete, the following file (which `fix_file` would have
changed) left unprocessed — even though `fix_file` itself handles the same
invalid file without error via lossy decoding. -/
theorem claim1_invalid_index_aborts_batch :
    runBatch [badIndexFile, pageFile] = ([badIndexFile, pageFile], 0, false)
    ∧ fix_file badIndexFile = (badIndexFile, false, [])
    ∧ (fix_file pageFile).2.1 = true := by decide

/-- Claim C2: the claim says a shipping link wrapped in a list item has the
entire list item removed, but the anchor-removal regex runs first, so only
the anchor is deleted and an empty `<li></li>` wrapper remains; with the
phrase in its exact case the earlier literal removal merely empties the
attribute and text and no element is removed at all. -/
theorem claim2_li_wrapper_survives :
    (fix_content "<li><a aria-label=\"NATIONWIDE SHIPPING\">NATIONWIDE SHIPPING</a></li>".data).1
      = "<li></li>".data
    ∧ (fix_content "<li><a aria-label=\"Nationwide Shipping\">Nationwide Shipping</a></li>".data).1
      = "<li><a aria-label=\"\"></a></li>".data := by decide

/-- Claim C3 counterexample: a changed file read with CRLF line endings is
not written back with CRLF: the original bytes contain the CRLF pair, the
file is rewritten, and the written bytes contain no carriage return at
all. -/
theorem claim3_crlf_not_preserved :
    occurs [13, 10] crlfFile.bytes = true
    ∧ (fix_file crlfFile).2.1 = true
    ∧ occurs [13] (fix_file crlfFile).1.bytes = false := by decide

/-- Claim C3 as amended: a changed file is rewritten at the same path with
the same UTF-8 encoding, but its line endings are normalized — the
universal-newline read turns CRLF into LF in memory and the `newline=''`
write performs no reverse translation, so the CRLF file comes back with LF
line endings. -/
theorem claim3_amended_lf_written :
    fix_file crlfFile
      = (⟨"page2.html", [65, 10, 10, 66]⟩, true, ["removed Nationwide Shipping"]) := by decide

/-- Claim C4 counterexample: a file changed only by a regex-based rule (here
the heading removal) is reported as changed with an EMPTY category set, not
with the category that fired. -/
theorem claim4_regex_change_reports_nothing :
    fix_file_text "<h1>NATIONWIDE SHIPPING</h1>".data = ([], true, []) := by decide

/-- Claim C4 as amended: the reported set contains the category of every
LITERAL rule class that fired, deduplicated (two firing state rules yield the
category once); the regex-based rules and the hot-sauce replacement record no
category, so a file changed only by them reports an empty set. -/
theorem claim4_amended_literal_categories :
    fix_file_text "NY, NJ, GA, CT and NY, NJ, GA".data
      = ("NJ and NJ".data, true, ["replaced states"])
    ∧ fix_file_text "Nationwide Shipping and NY, NJ, GA".data
      = (" and NJ".data, true, ["removed Nationwide Shipping", "replaced states"])
    ∧ fix_file_text "<h1>NATIONWIDE  SHIPPING</h1>".data = ([], true, []) := by decide

/-- Claim C5 counterexample: the transform is not idempotent — on a text with
overlapping occurrences of the shipping phrase, the removal splices a fresh
occurrence together, which only a second application removes. -/
theorem claim5_not_idempotent :
    (fix_content (fix_content "Nationwide ShiNationwide Shippingpping".data).1).1
      ≠ (fix_content "Nationwide ShiNationwide Shippingpping".data).1 := by decide

/-- Claim C5 as amended: whenever the transformed text contains no residual
target pattern (the typical case, but not all inputs), a second application
returns it unchanged, detects the content as unchanged and writes nothing. -/
theorem claim5_amended_idempotent_without_residue (s : List Char)
    (h : no_target_patterns (fix_content s).1 = true) :
    fix_content ((fix_content s).1) = ((fix_content s).1, [])
    ∧ fix_file_text ((fix_content s).1) = ((fix_content s).1, false, []) := by
  have hfix := fix_content_id _ h
  exact ⟨hfix, by simp [fix_file_text, hfix]⟩

/-- Claim C5 witness: a concrete input whose transform is residue-free, on
which the second application is the identity. -/
theorem claim5_witness :
    no_target_patterns (fix_content "Open Daily - Nationwide Shipping".data).1 = true
    ∧ fix_content ((fix_content "Open Daily - Nationwide Shipping".data).1)
        = ((fix_content "Open Daily - Nationwide Shipping".data).1, []) :=
  ⟨by decide, (claim5_amended_idempotent_without_residue _ (by decide)).1⟩

/-- Claim C6 counterexample: the em-dash example does not transform to
exactly `"Open Daily"` — the space that separated the phrase from the
preceding text survives the removal. -/
theorem claim6_trailing_space_remains :
    (fix_content "Open Daily — Nationwide Shipping".data).1 ≠ "Open Daily".data := by decide

/-- Claim C6 as amended: for each of the four dash variants the shipping
phrase and its leading dash are fully removed and no dash of any kind
remains, but the example input transforms to `"Open Daily "` with a trailing
space, not to `"Open Daily"`. -/
theorem claim6_amended_dash_variants :
    (fix_content "Open Daily — Nationwide Shipping".data).1 = "Open Daily ".data
    ∧ (fix_content "Open Daily – Nationwide Shipping".data).1 = "Open Daily ".data
    ∧ (fix_content "Open Daily - Nationwide Shipping".data).1 = "Open Daily ".data
    ∧ (fix_content "Open Daily Nationwide Shipping".data).1 = "Open Daily ".data
    ∧ occurs "—".data "Open Daily ".data = false
    ∧ occurs "–".data "Open Daily ".data = false
    ∧ occurs "-".data "Open Daily ".data = false := by decide

/-- Claim C7: a file whose decoded text contains none of the target patterns
is left untouched by `fix_file` — the returned file is the input file itself
(same bytes, nothing written) and it is reported unchanged with no
categories. -/
theorem claim7_unchanged_file_not_written (f : HFile)
    (h : no_target_patterns (univNewlines (decodeUtf8Replace f.bytes)) = true) :
    fix_file f = (f, false, []) := by
  have hfix := fix_content_id _ h
  simp [fix_file, hfix]

/-- Claim C7 witness: a concrete pattern-free file is returned untouched. -/
theorem claim7_witness :
    no_target_patterns (univNewlines (decodeUtf8Replace plainFile.bytes)) = true
    ∧ fix_file plainFile = (plainFile, false, []) :=
  ⟨by decide, claim7_unchanged_file_not_written plainFile (by decide)⟩

/-- Claim C8: each of the eight region-code variant strings, in context, is
replaced exactly once by the canonical code, with no partial or duplicate
replacement left behind; in particular the spec's example transforms to
exactly `"Serving NJ residents"`. -/
theorem claim8_state_variants_canonical :
    (fix_content "Serving NY, NJ, GA, & CT residents".data).1 = "Serving NJ residents".data
    ∧ (fix_content "Serving NY, NJ, GA & CT residents".data).1 = "Serving NJ residents".data
    ∧ (fix_content "Serving NY, NJ, GA, CT residents".data).1 = "Serving NJ residents".data
    ∧ (fix_content "Serving NY, NJ, GA residents".data).1 = "Serving NJ residents".data
    ∧ (fix_content "Serving in NY, NJ, GA, & CT residents".data).1
        = "Serving in NJ residents".data
    ∧ (fix_content "Serving in NY, NJ, GA & CT residents".data).1
        = "Serving in NJ residents".data
    ∧ (fix_content "Serving in NY, NJ, GA, CT residents".data).1
        = "Serving in NJ residents".data
    ∧ (fix_content "Serving in NY, NJ, GA residents".data).1 = "Serving in NJ residents".data
    ∧ occurs "NY".data "Serving NJ residents".data = false
    ∧ occurs "GA".data "Serving NJ residents".data = false
    ∧ occurs "CT".data "Serving NJ residents".data = false := by decide

/-- Claim C9: cuisine replacement is phrasing-order-sensitive — in one text
the compound `"Middle Eastern Restaurant"` becomes `"Halal Restaurant"` via
its specific mapping while a bare `"Middle Eastern"` elsewhere becomes
`"Halal"` via the generic catch-all, independently, the specific phrasing not
pre-empted by the generic rule. -/
theorem claim9_cuisine_order_sensitive :
    (fix_content "Middle Eastern Restaurant".data).1 = "Halal Restaurant".data
    ∧ (fix_content "Middle Eastern Restaurant offers Middle Eastern flavors".data).1
        = "Halal Restaurant offers Halal flavors".data
    ∧ (fix_content "authentic Middle Eastern and Middle Eastern Cuisine at our Middle Eastern Restaurant, serving Middle Eastern food".data).1
        = "authentic Halal and Halal Cuisine at our Halal Restaurant, serving Halal food".data
      := by decide

/-- Claim C10 counterexample: the transform and its variant without the four
preposition-prefixed state rules are NOT extensionally equal — replacing
`"NY, NJ, GA"` can splice a fresh `"in NY, NJ, GA, & CT"` together out of
surrounding text, and then a preposition-prefixed rule fires. -/
theorem claim10_in_rules_can_fire :
    (fix_content "in NY, NY, NJ, GA, GA, & CT".data).1
      ≠ (fix_content_noin "in NY, NY, NJ, GA, GA, & CT".data).1 := by decide

/-- Claim C10 as amended: the four preposition-prefixed rules are not dead —
on straightforward text the bare variant checked earlier does destroy their
match, but a bare-variant replacement can splice a new preposition-prefixed
occurrence together, so removing those rules changes the output. -/
theorem claim10_amended_transforms_differ :
    (fix_content "in NY, NY, NJ, GA, GA, & CT".data).1 = "in NJ".data
    ∧ (fix_content_noin "in NY, NY, NJ, GA, GA, & CT".data).1
        = "in NY, NJ, GA, & CT".data := by decide

end FixAll
